import Mathlib

/-!
Verification of the Echo-server backend (Express + Mongoose media-catalog CMS)
against its natural-language specification.

The embedding models the document stores as Lean lists, ObjectIds as `Nat`,
and each HTTP handler as a pure function from request data and store state to
an `HttpResponse` together with the updated store.  Handlers are translated
from the TypeScript/JavaScript controllers:
  * `updateCategoryItemCount`, `deleteCategory` — categoryController.ts
  * `createCategory`                            — the JS categoryController variant
  * `createItem`, `updateItem`, `updateItemStatus`, `deleteItem`,
    `bulkDeleteItems`                           — itemController.ts
  * `createItemRelaxed`                         — the relaxed JS itemController variant
  * `login`                                     — authController.ts
  * `authenticate`                              — middleware/auth.ts
  * `paginate`                                  — the shared pagination shape of
                                                  getCategories / getItems
Character classes of the slug regexes are modelled over ASCII code points
(the claims only concern ASCII inputs).
-/

/-- Item lifecycle status, the `status` enum of the Item schema. -/
inductive ItemStatus where
  | active
  | inactive
  | draft
  deriving DecidableEq, Repr

/-- Category lifecycle status, the `status` enum of the Category schema. -/
inductive CatStatus where
  | active
  | inactive
  deriving DecidableEq, Repr

/-- A category document (fields relevant to the claims). -/
structure Category where
  id : Nat
  name : String
  slug : String
  status : CatStatus
  itemCount : Nat
  deriving DecidableEq, Repr

/-- An item document (fields relevant to the claims); `category` is the
foreign-key reference to a `Category.id`. -/
structure Item where
  id : Nat
  title : String
  slug : String
  category : Nat
  status : ItemStatus
  deriving DecidableEq, Repr

/-- An admin document from the Admin schema; `password` holds the stored hash. -/
structure Admin where
  id : Nat
  username : String
  email : String
  password : String
  role : String
  isActive : Bool
  lastLogin : Option Nat
  deriving DecidableEq, Repr

/-- The document database: the taxonomy store and the catalog store. -/
structure Store where
  categories : List Category
  items : List Item
  deriving DecidableEq, Repr

/-- The observable part of a JSON response: HTTP status code, the `success`
flag and the `message` field. -/
structure HttpResponse where
  status : Nat
  success : Bool
  message : String
  deriving DecidableEq, Repr

/-! ## Slug allocator (§4.1): the regex pipeline of createCategory/createItem -/

/-- ASCII lowercasing, modelling `String.prototype.toLowerCase` on the ASCII
range (code points 65–90 map to 97–122). -/
def toLowerAscii (c : Char) : Char :=
  if 65 ≤ c.toNat ∧ c.toNat ≤ 90 then Char.ofNat (c.toNat + 32) else c

/-- The regex class `\s` restricted to ASCII: space, tab, LF, CR, VT, FF. -/
def isSpaceChar (c : Char) : Bool :=
  decide (c.toNat = 32 ∨ c.toNat = 9 ∨ c.toNat = 10 ∨ c.toNat = 13 ∨
          c.toNat = 11 ∨ c.toNat = 12)

/-- A lowercase letter or a digit. -/
def isLowerDigit (c : Char) : Bool :=
  decide (97 ≤ c.toNat ∧ c.toNat ≤ 122) || decide (48 ≤ c.toNat ∧ c.toNat ≤ 57)

/-- The hyphen-minus character. -/
def isHyphen (c : Char) : Bool :=
  decide (c = '-')

/-- The keep-class `[a-z0-9\s-]` of `.replace(/[^a-z0-9\s-]/g, "")`. -/
def isSlugKeepChar (c : Char) : Bool :=
  isLowerDigit c || isSpaceChar c || isHyphen c

/-- Model of `String.prototype.trim`: strip whitespace from both ends. -/
def trimChars (l : List Char) : List Char :=
  ((l.dropWhile isSpaceChar).reverse.dropWhile isSpaceChar).reverse

/-- Model of `.replace(/p+/g, rep)`: every maximal run of characters satisfying `p`
is replaced by the single character `rep`. -/
def collapseRuns (p : Char → Bool) (rep : Char) : List Char → List Char
  | [] => []
  | [c] => if p c then [rep] else [c]
  | c :: d :: rest =>
    if p c then
      if p d then collapseRuns p rep (d :: rest)
      else rep :: collapseRuns p rep (d :: rest)
    else c :: collapseRuns p rep (d :: rest)

/-- The `^-` half of `.replace(/^-|-$/g, "")`: drop one leading hyphen. -/
def dropLeadHyphen : List Char → List Char
  | [] => []
  | c :: rest => if isHyphen c then rest else c :: rest

/-- The `-$` half of `.replace(/^-|-$/g, "")`: drop one trailing hyphen. -/
def dropTrailHyphen (l : List Char) : List Char :=
  match l.getLast? with
  | some c => if isHyphen c then l.dropLast else l
  | none => l

/-- The slug normalization chain of createCategory/createItem:
lowercase, trim, strip `[^a-z0-9\s-]`, `\s+` → `-`, `-+` → `-`,
strip one leading and one trailing hyphen. -/
def slugifyChars (l : List Char) : List Char :=
  dropTrailHyphen (dropLeadHyphen
    (collapseRuns isHyphen '-'
      (collapseRuns isSpaceChar '-'
        (List.filter isSlugKeepChar
          (trimChars (l.map toLowerAscii))))))

/-- String-level slug normalization. -/
def slugify (s : String) : String :=
  String.mk (slugifyChars s.data)

/-- The uniqueness while-loop of createCategory/createItem:
`uniqueSlug = base; counter = 1; while (taken(uniqueSlug)) uniqueSlug = base-counter++`.
The source loop has no bound; `fuel` bounds the iterations in the model and
`none` marks fuel exhaustion (the handlers pass more fuel than the finite
store can consume in the verified scenarios). -/
def uniqueSlugLoop (taken : String → Bool) (base : String) :
    Nat → String → Nat → Option String
  | 0, _, _ => none
  | fuel + 1, cur, counter =>
    if taken cur then
      uniqueSlugLoop taken base fuel (base ++ "-" ++ toString counter) (counter + 1)
    else some cur

/-- Entry point of the uniqueness loop: probe `base` first, counter starts at 1. -/
def makeUniqueSlug (taken : String → Bool) (base : String) (fuel : Nat) : Option String :=
  uniqueSlugLoop taken base fuel base 1

/-! ## Denormalized counter maintainer (§4.2) -/

/-- Model of `Item.countDocuments({ category: cid, status: "active" })`. -/
def activeItemCount (items : List Item) (cid : Nat) : Nat :=
  (items.filter fun i => i.category == cid && decide (i.status = ItemStatus.active)).length

/-- Model of `Item.countDocuments({ category: cid })` — every status counts. -/
def refItemCount (items : List Item) (cid : Nat) : Nat :=
  (items.filter fun i => i.category == cid).length

/-- Model of `updateCategoryItemCount(categoryId)` (categoryController.ts): recount the
active items referencing the category and write the count onto its
`itemCount` field via `findByIdAndUpdate`. -/
def updateCategoryItemCount (cid : Nat) (s : Store) : Store :=
  { s with
    categories := s.categories.map fun c =>
      if c.id == cid then { c with itemCount := activeItemCount s.items cid } else c }

/-- Variant of `updateCategoryItemCount` with its internal try/catch made explicit: the
source wraps the whole body in `try … catch { logger.error(…) }`, so a
database failure (modelled by `fail = true`) leaves the store untouched and
control returns normally to the caller in either case. -/
def updateCategoryItemCountF (fail : Bool) (cid : Nat) (s : Store) : Store :=
  if fail then s else updateCategoryItemCount cid s

/-! ## Taxonomy handlers -/

/-- The conflict message of deleteCategory, which embeds the referencing-item
count. -/
def conflictMessage (n : Nat) : String :=
  "Cannot delete category. It has " ++ toString n ++ " items. Please move or delete items first."

/-- Model of `deleteCategory` (categoryController.ts): block with 400 if any item of any
status references the category; otherwise delete, or 404 if absent. -/
def deleteCategory (cid : Nat) (s : Store) : HttpResponse × Store :=
  let n := refItemCount s.items cid
  if n > 0 then
    (⟨400, false, conflictMessage n⟩, s)
  else
    match s.categories.find? (fun c => c.id == cid) with
    | none => (⟨404, false, "Category not found"⟩, s)
    | some _ =>
      (⟨200, true, "Category deleted successfully"⟩,
        { s with categories := s.categories.filter fun c => !(c.id == cid) })

/-- Model of `createCategory` (JS categoryController variant): derive the slug from the
name when absent, run the uniqueness loop, persist with the free slug.
`newId` stands for the ObjectId the database would mint. -/
def createCategory (name slug : String) (cstatus : CatStatus) (newId : Nat)
    (s : Store) : Option (HttpResponse × Store) :=
  let categorySlug := if slug == "" && name != "" then slugify name else slug
  if categorySlug == "" then
    some (⟨400, false, "Category name is required to generate slug"⟩, s)
  else
    match makeUniqueSlug (fun sl => (s.categories.find? fun c => c.slug == sl).isSome)
        categorySlug (s.categories.length + 2) with
    | none => none
    | some u =>
      some (⟨201, true, "Category created successfully"⟩,
        { s with categories := s.categories ++ [⟨newId, name, u, cstatus, 0⟩] })

/-! ## Catalog handlers -/

/-- Request body of the typed item handlers; `""` stands for an absent string
field (JS falsiness identifies the two) and `none` for an absent reference. -/
structure ItemReq where
  title : String
  slug : String
  category : Option Nat
  status : Option ItemStatus
  deriving DecidableEq, Repr

/-- Does the request field `category` identify an existing category?
(`Category.findById(undefined)` yields `null` in Mongoose, hence `false` for
`none`.) -/
def categoryIdExists (s : Store) (oc : Option Nat) : Bool :=
  match oc with
  | some cid => (s.categories.find? fun c => c.id == cid).isSome
  | none => false

/-- Model of `createItem` (itemController.ts): verify the category exists, reject a
taken slug, persist, then recount the category. -/
def createItem (fail : Bool) (newId : Nat) (r : ItemReq) (s : Store) :
    HttpResponse × Store :=
  if !categoryIdExists s r.category then
    (⟨400, false, "Category not found"⟩, s)
  else
    match r.category with
    | none => (⟨400, false, "Category not found"⟩, s)
    | some cid =>
      if (s.items.find? fun i => i.slug == r.slug).isSome then
        (⟨400, false, "Item with this slug already exists"⟩, s)
      else
        let item : Item := ⟨newId, r.title, r.slug, cid, r.status.getD ItemStatus.draft⟩
        (⟨201, true, "Item created successfully"⟩,
          updateCategoryItemCountF fail cid { s with items := s.items ++ [item] })

/-- Character-description length check of the relaxed create/update handlers:
any provided description longer than 300 characters is rejected. -/
def charactersOk (descriptions : List String) : Bool :=
  descriptions.all fun d => decide (d.length ≤ 300)

/-- Request body of the relaxed JS item handler, which additionally carries
character descriptions. -/
structure ItemReqJS where
  title : String
  slug : String
  category : Option Nat
  status : Option ItemStatus
  characters : List String
  deriving DecidableEq, Repr

/-- Model of `createItem` (relaxed JS itemController variant): require `category`,
validate character descriptions, derive the slug from the title, verify the
category exists, run the slug-uniqueness loop, persist, recount. -/
def createItemRelaxed (fail : Bool) (newId : Nat) (r : ItemReqJS) (s : Store) :
    Option (HttpResponse × Store) :=
  match r.category with
  | none => some (⟨400, false, "Category is required."⟩, s)
  | some cid =>
    if !charactersOk r.characters then
      some (⟨400, false, "Character description must be 300 characters or less."⟩, s)
    else
      let itemSlug := if r.slug == "" && r.title != "" then slugify r.title else r.slug
      if itemSlug == "" then
        some (⟨400, false, "Title is required to generate slug"⟩, s)
      else if (s.categories.find? fun c => c.id == cid).isNone then
        some (⟨400, false, "Category not found"⟩, s)
      else
        match makeUniqueSlug (fun sl => (s.items.find? fun i => i.slug == sl).isSome)
            itemSlug (s.items.length + 2) with
        | none => none
        | some u =>
          let item : Item := ⟨newId, r.title, u, cid, r.status.getD ItemStatus.draft⟩
          some (⟨201, true, "Item created successfully"⟩,
            updateCategoryItemCountF fail cid { s with items := s.items ++ [item] })

/-- Model of `updateItem` (itemController.ts): look up the item, check a changed
category exists, check a changed slug is free, apply the provided fields,
then recount the old (and, when changed, the new) category. -/
def updateItem (fail : Bool) (iid : Nat) (r : ItemReq) (s : Store) :
    HttpResponse × Store :=
  match s.items.find? (fun i => i.id == iid) with
  | none => (⟨404, false, "Item not found"⟩, s)
  | some cur =>
    if (match r.category with
        | some c => (c != cur.category) && (s.categories.find? fun (k : Category) => k.id == c).isNone
        | none => false) then
      (⟨400, false, "Category not found"⟩, s)
    else if (r.slug != "") && (r.slug != cur.slug) &&
        (s.items.find? fun (i : Item) => i.slug == r.slug && i.id != iid).isSome then
      (⟨400, false, "Item with this slug already exists"⟩, s)
    else
      let newItem : Item :=
        { cur with
          title := if r.title != "" then r.title else cur.title
          slug := if r.slug != "" then r.slug else cur.slug
          category := r.category.getD cur.category
          status := r.status.getD cur.status }
      let s1 : Store := { s with items := s.items.map fun i => if i.id == iid then newItem else i }
      let s2 :=
        match r.category with
        | some c =>
          if c != cur.category then
            updateCategoryItemCountF fail c (updateCategoryItemCountF fail cur.category s1)
          else updateCategoryItemCountF fail cur.category s1
        | none => updateCategoryItemCountF fail cur.category s1
      (⟨200, true, "Item updated successfully"⟩, s2)

/-- Model of `updateItemStatus` (itemController.ts): set the status, then recount the
category of the item. -/
def updateItemStatus (fail : Bool) (iid : Nat) (st : ItemStatus) (s : Store) :
    HttpResponse × Store :=
  match s.items.find? (fun i => i.id == iid) with
  | none => (⟨404, false, "Item not found"⟩, s)
  | some cur =>
    let s1 : Store :=
      { s with items := s.items.map fun i => if i.id == iid then { i with status := st } else i }
    (⟨200, true, "Item status updated successfully"⟩,
      updateCategoryItemCountF fail cur.category s1)

/-- Model of `deleteItem` (itemController.ts): delete by id, then recount the deleted
category of the item. -/
def deleteItem (fail : Bool) (iid : Nat) (s : Store) : HttpResponse × Store :=
  match s.items.find? (fun i => i.id == iid) with
  | none => (⟨404, false, "Item not found"⟩, s)
  | some cur =>
    let s1 : Store := { s with items := s.items.filter fun i => !(i.id == iid) }
    (⟨200, true, "Item deleted successfully"⟩,
      updateCategoryItemCountF fail cur.category s1)

/-- Model of `bulkDeleteItems` (itemController.ts): delete all listed items, then
recount once per distinct affected category. -/
def bulkDeleteItems (fail : Bool) (ids : List Nat) (s : Store) : HttpResponse × Store :=
  if ids.isEmpty then
    (⟨400, false, "Please provide an array of item IDs"⟩, s)
  else
    let victims := s.items.filter fun i => ids.contains i.id
    let categoryIds := (victims.map (·.category)).eraseDups
    let s1 : Store := { s with items := s.items.filter fun i => !(ids.contains i.id) }
    let s2 := categoryIds.foldl (fun acc cid => updateCategoryItemCountF fail cid acc) s1
    (⟨200, true, toString victims.length ++ " items deleted successfully"⟩, s2)

/-! ## Credential operations (§4.6) and auth gate (§4.5) -/

/-- Model of `Admin.findOne({ email, isActive: true })`. -/
def findActiveByEmail (admins : List Admin) (email : String) : Option Admin :=
  admins.find? fun a => a.email == email && a.isActive

/-- Model of `login` (authController.ts); `checkPw stored given` stands for the bcrypt
comparison of the stored hash against the supplied password, `now` for the
current time written to `lastLogin`.  Both failure branches return the same
generic body; the success branch updates `lastLogin` and answers 200. -/
def login (checkPw : String → String → Bool) (now : Nat) (email password : String)
    (admins : List Admin) : HttpResponse × List Admin :=
  match findActiveByEmail admins email with
  | none => (⟨401, false, "Invalid email or password"⟩, admins)
  | some a =>
    if checkPw a.password password then
      (⟨200, true, "Login successful"⟩,
        admins.map fun b => if b.id == a.id then { b with lastLogin := some now } else b)
    else
      (⟨401, false, "Invalid email or password"⟩, admins)

/-- Outcome of `jwt.verify`: a decoded admin id, or one of the two throwing
failure modes (`TokenExpiredError` vs `JsonWebTokenError` for a malformed or
badly signed token). -/
inductive VerifyResult where
  | ok (adminId : Nat)
  | expired
  | malformed
  deriving DecidableEq, Repr

/-- Outcome of running the middleware: respond-and-stop, or proceed with the
attached admin. -/
inductive AuthOutcome where
  | halt (r : HttpResponse)
  | proceed (a : Admin)
  deriving DecidableEq, Repr

/-- Model of `authenticate` (middleware/auth.ts).  A missing token answers 401; any
throw of `jwt.verify` — expired or malformed alike — lands in the single
`catch` block, which answers 401 "Invalid token."; a decoded but unknown or
inactive admin gets its own 401 message; otherwise the admin is attached. -/
def authenticate (verify : String → VerifyResult) (admins : List Admin)
    (token : Option String) : AuthOutcome :=
  match token with
  | none => .halt ⟨401, false, "Access denied. No token provided."⟩
  | some t =>
    match verify t with
    | .expired => .halt ⟨401, false, "Invalid token."⟩
    | .malformed => .halt ⟨401, false, "Invalid token."⟩
    | .ok aid =>
      match admins.find? (fun a => a.id == aid) with
      | none => .halt ⟨401, false, "Invalid token. Admin not found."⟩
      | some a =>
        if a.isActive then .proceed a
        else .halt ⟨401, false, "Account is inactive. Please contact administrator."⟩

/-! ## Pagination (getCategories / getItems) -/

/-- The pagination block of the list responses. -/
structure Pagination where
  current : Nat
  pages : Nat
  total : Nat
  wlimit : Nat
  hasNext : Bool
  hasPrev : Bool
  deriving DecidableEq, Repr

/-- The shared pagination logic of getCategories/getItems applied to the
filtered, sorted matching records: `skip = (page-1)*limit`, a page of
`limit` records, `pages = ceil(total/limit)` (the integer form of
`Math.ceil` for positive `limit`), `hasNext = page < pages`,
`hasPrev = page > 1`. -/
def paginate {α : Type} (records : List α) (page lim : Nat) : List α × Pagination :=
  let skip := (page - 1) * lim
  let total := records.length
  let pages := (total + lim - 1) / lim
  ((records.drop skip).take lim,
    ⟨page, pages, total, lim, decide (page < pages), decide (page > 1)⟩)

/-! ## Concrete fixtures used by the witnesses -/

/-- Fixture categories, items, stores for the witnesses. -/
def catGames : Category := ⟨1, "Games", "games", CatStatus.active, 5⟩

def catMovies : Category := ⟨2, "Movies", "movies", CatStatus.active, 0⟩

def itemA : Item := ⟨10, "Alpha", "alpha", 1, ItemStatus.active⟩

def itemB : Item := ⟨11, "Beta", "beta", 1, ItemStatus.draft⟩

def itemC : Item := ⟨12, "Gamma", "gamma", 2, ItemStatus.inactive⟩

def cexStore : Store := ⟨[catGames, catMovies], [itemA, itemB, itemC]⟩

/-- A store whose only items referencing category 3 are draft or inactive:
the denormalized counter recomputes to 0 while deletion is still blocked. -/
def staleStore : Store :=
  ⟨[⟨3, "Anime", "anime", CatStatus.active, 7⟩],
   [⟨20, "Delta", "delta", 3, ItemStatus.draft⟩,
    ⟨21, "Echo", "echo", 3, ItemStatus.inactive⟩]⟩

/-- Fixture admin and password comparison for the login witness. -/
def cexAdmin : Admin :=
  ⟨1, "admin", "admin@site.com", "stored-hash", "super_admin", true, none⟩

def cexCheckPw (stored given : String) : Bool :=
  stored == given

/-- A token classifier with one expired and one malformed token, used to
exhibit that `authenticate` cannot tell the two apart. -/
def cexVerify (t : String) : VerifyResult :=
  if t == "t-expired" then VerifyResult.expired else VerifyResult.malformed

/-- The empty store. -/
def emptyStore : Store := ⟨[], []⟩

/-! ## Helper lemmas for the slug pipeline -/

/-- A character of the clean class `[a-z0-9-]`. -/
def isSlugBodyChar (c : Char) : Bool :=
  isLowerDigit c || isHyphen c

/-- No two adjacent characters of the list are both hyphens. -/
def noAdjacentHyphens : List Char → Bool
  | [] => true
  | [_] => true
  | c :: d :: rest => !(isHyphen c && isHyphen d) && noAdjacentHyphens (d :: rest)

/-- A nonempty string over `[a-z0-9-]` with no leading, trailing or repeated
hyphen — the "already-clean" inputs of the idempotence property. -/
def isCleanSlug (s : String) : Bool :=
  !s.data.isEmpty && s.data.all isSlugBodyChar &&
    decide (s.data.head? ≠ some '-') && decide (s.data.getLast? ≠ some '-') &&
    noAdjacentHyphens s.data

theorem string_mk_data (s : String) : String.mk s.data = s := by
  cases s
  rfl

theorem toLowerAscii_id {c : Char} (h : isSlugBodyChar c = true) :
    toLowerAscii c = c := by
  simp only [isSlugBodyChar, isLowerDigit, isHyphen, Bool.or_eq_true,
    decide_eq_true_eq] at h
  unfold toLowerAscii
  rcases h with (h | h) | h
  · rw [if_neg (by omega)]
  · rw [if_neg (by omega)]
  · subst h
    decide

theorem not_space_of_body {c : Char} (h : isSlugBodyChar c = true) :
    isSpaceChar c = false := by
  simp only [isSlugBodyChar, isLowerDigit, isHyphen, Bool.or_eq_true,
    decide_eq_true_eq] at h
  rw [isSpaceChar, decide_eq_false_iff_not]
  rcases h with (h | h) | h
  · intro hc
    rcases hc with h1 | h1 | h1 | h1 | h1 | h1 <;> omega
  · intro hc
    rcases hc with h1 | h1 | h1 | h1 | h1 | h1 <;> omega
  · subst h
    decide

theorem keep_of_body {c : Char} (h : isSlugBodyChar c = true) :
    isSlugKeepChar c = true := by
  simp only [isSlugBodyChar, Bool.or_eq_true] at h
  simp only [isSlugKeepChar, Bool.or_eq_true]
  rcases h with h | h
  · exact Or.inl (Or.inl h)
  · exact Or.inr h

theorem map_id_of_fix {f : Char → Char} {l : List Char} (h : ∀ c ∈ l, f c = c) :
    l.map f = l := by
  induction l with
  | nil => rfl
  | cons c rest ih =>
    simp only [List.map_cons]
    rw [h c (by simp), ih fun d hd => h d (by simp [hd])]

theorem dropWhile_id_of_none {p : Char → Bool} {l : List Char}
    (h : ∀ c ∈ l, p c = false) : l.dropWhile p = l := by
  cases l with
  | nil => rfl
  | cons c rest => rw [List.dropWhile_cons, if_neg (by simp [h c (by simp)])]

theorem trimChars_id {l : List Char} (h : ∀ c ∈ l, isSpaceChar c = false) :
    trimChars l = l := by
  unfold trimChars
  rw [dropWhile_id_of_none h,
    dropWhile_id_of_none fun c hc => h c (List.mem_reverse.mp hc)]
  exact List.reverse_reverse l

theorem filter_id_of_all {p : Char → Bool} {l : List Char}
    (h : ∀ c ∈ l, p c = true) : l.filter p = l := by
  induction l with
  | nil => rfl
  | cons c rest ih =>
    rw [List.filter_cons, if_pos (h c (by simp)), ih fun d hd => h d (by simp [hd])]

theorem collapseRuns_id_of_none (p : Char → Bool) (rep : Char) :
    ∀ l : List Char, (∀ c ∈ l, p c = false) → collapseRuns p rep l = l
  | [], _ => rfl
  | [c], h => by simp [collapseRuns, h c (by simp)]
  | c :: d :: rest, h => by
    have hc := h c (by simp)
    have ih := collapseRuns_id_of_none p rep (d :: rest)
      fun e he => h e (List.mem_cons_of_mem c he)
    simp [collapseRuns, hc, ih]

theorem collapseRuns_id_of_noadj :
    ∀ l : List Char, noAdjacentHyphens l = true → collapseRuns isHyphen '-' l = l
  | [], _ => rfl
  | [c], _ => by
    by_cases hc : isHyphen c = true
    · have hcc : c = '-' := of_decide_eq_true hc
      simp [collapseRuns, hc, hcc]
    · simp [collapseRuns, hc]
  | c :: d :: rest, h => by
    simp only [noAdjacentHyphens, Bool.and_eq_true, Bool.not_eq_true',
      Bool.and_eq_false_iff] at h
    have ih := collapseRuns_id_of_noadj (d :: rest) h.2
    by_cases hc : isHyphen c = true
    · have hd : isHyphen d = false := by
        rcases h.1 with h1 | h1
        · rw [hc] at h1
          cases h1
        · exact h1
      have hcc : c = '-' := of_decide_eq_true hc
      simp [collapseRuns, hc, hd, ih, hcc]
    · simp [collapseRuns, hc, ih]

theorem dropLeadHyphen_id {l : List Char} (h : l.head? ≠ some '-') :
    dropLeadHyphen l = l := by
  cases l with
  | nil => rfl
  | cons c rest =>
    have hc : isHyphen c = false := by
      rw [isHyphen, decide_eq_false_iff_not]
      intro hcc
      exact h (by simp [hcc])
    simp [dropLeadHyphen, hc]

theorem dropTrailHyphen_id {l : List Char} (h : l.getLast? ≠ some '-') :
    dropTrailHyphen l = l := by
  unfold dropTrailHyphen
  cases hl : l.getLast? with
  | none => rfl
  | some c =>
    have hc : isHyphen c = false := by
      rw [isHyphen, decide_eq_false_iff_not]
      intro hcc
      rw [hcc] at hl
      exact h hl
    simp [hc]

/-- C8: the slug normalization chain (lowercase, trim, strip characters
outside `[a-z0-9\s-]`, collapse whitespace runs to single hyphens, collapse
repeated hyphens, strip leading/trailing hyphens) returns every clean input —
a nonempty `[a-z0-9-]` string without leading, trailing or repeated hyphens —
unchanged. -/
theorem c8_slugify_idempotent_on_clean (s : String) (h : isCleanSlug s = true) :
    slugify s = s := by
  simp only [isCleanSlug, Bool.and_eq_true, List.all_eq_true, decide_eq_true_eq] at h
  obtain ⟨⟨⟨⟨-, hall⟩, hhd⟩, hlast⟩, hadj⟩ := h
  have hkeep : ∀ c ∈ s.data, isSlugKeepChar c = true :=
    fun c hc => keep_of_body (hall c hc)
  have hns : ∀ c ∈ s.data, isSpaceChar c = false :=
    fun c hc => not_space_of_body (hall c hc)
  have h1 : s.data.map toLowerAscii = s.data :=
    map_id_of_fix fun c hc => toLowerAscii_id (hall c hc)
  unfold slugify slugifyChars
  rw [h1, trimChars_id hns, filter_id_of_all hkeep,
    collapseRuns_id_of_none isSpaceChar '-' s.data hns,
    collapseRuns_id_of_noadj s.data hadj,
    dropLeadHyphen_id hhd, dropTrailHyphen_id hlast]

/-! ## Counter maintainer and delete guard -/

theorem updateCategoryItemCount_items (cid : Nat) (s : Store) :
    (updateCategoryItemCount cid s).items = s.items := rfl

theorem deleteCategory_conflict {cid : Nat} {s : Store}
    (h : 0 < refItemCount s.items cid) :
    deleteCategory cid s =
      (⟨400, false, conflictMessage (refItemCount s.items cid)⟩, s) := by
  unfold deleteCategory
  simp only [gt_iff_lt, if_pos h]

theorem deleteCategory_notfound {cid : Nat} {s : Store}
    (h0 : refItemCount s.items cid = 0)
    (hf : s.categories.find? (fun c => c.id == cid) = none) :
    deleteCategory cid s = (⟨404, false, "Category not found"⟩, s) := by
  unfold deleteCategory
  simp only [h0, gt_iff_lt, lt_self_iff_false, if_false, hf]

/-- C1: `updateCategoryItemCount cid` leaves the item store untouched, keeps
the length of the category list, rewrites the category whose id is `cid` so that
its `itemCount` equals the number of items referencing `cid` whose status is
active — the filter predicate requires `status = active`, so inactive and
draft items are not counted — and leaves every category with a different id
unchanged (in both directions). -/
theorem c1_recount_active_only (cid : Nat) (s : Store) :
    (updateCategoryItemCount cid s).items = s.items ∧
    (updateCategoryItemCount cid s).categories.length = s.categories.length ∧
    (∀ c ∈ s.categories, c.id = cid →
      { c with itemCount :=
          (s.items.filter fun i =>
            i.category == cid && decide (i.status = ItemStatus.active)).length }
        ∈ (updateCategoryItemCount cid s).categories) ∧
    (∀ c ∈ s.categories, c.id ≠ cid → c ∈ (updateCategoryItemCount cid s).categories) ∧
    (∀ c ∈ (updateCategoryItemCount cid s).categories, c.id ≠ cid → c ∈ s.categories) := by
  refine ⟨rfl, by simp [updateCategoryItemCount], ?_, ?_, ?_⟩
  · intro c hc hid
    unfold updateCategoryItemCount
    refine List.mem_map.mpr ⟨c, hc, ?_⟩
    simp [hid, activeItemCount]
  · intro c hc hid
    unfold updateCategoryItemCount
    refine List.mem_map.mpr ⟨c, hc, ?_⟩
    simp [hid]
  · intro c hc hid
    unfold updateCategoryItemCount at hc
    obtain ⟨b, hb, hfb⟩ := List.mem_map.mp hc
    by_cases hbid : b.id = cid
    · exfalso
      apply hid
      rw [← hfb]
      simp [hbid]
    · rw [← hfb]
      simpa [hbid] using hb

theorem c1_recount_active_only_witness :
    catGames ∈ cexStore.categories ∧ catGames.id = 1 ∧
    { catGames with itemCount := 1 } ∈ (updateCategoryItemCount 1 cexStore).categories :=
  ⟨by decide, rfl, (c1_recount_active_only 1 cexStore).2.2.1 catGames (by decide) rfl⟩

/-- C2: `deleteCategory` with at least one referencing item (of any status)
answers 400 with the referencing-item count embedded in the message and
leaves the store untouched; with no referencing item and no category of that
id it answers 404 and leaves the store untouched. -/
theorem c2_delete_category_guard (cid : Nat) (s : Store) :
    (0 < refItemCount s.items cid →
      (deleteCategory cid s).1.status = 400 ∧
      (deleteCategory cid s).1.success = false ∧
      (deleteCategory cid s).1.message = conflictMessage (refItemCount s.items cid) ∧
      (deleteCategory cid s).2 = s) ∧
    (refItemCount s.items cid = 0 →
      s.categories.find? (fun c => c.id == cid) = none →
      (deleteCategory cid s).1 = ⟨404, false, "Category not found"⟩ ∧
      (deleteCategory cid s).2 = s) := by
  constructor
  · intro h
    rw [deleteCategory_conflict h]
    exact ⟨rfl, rfl, rfl, rfl⟩
  · intro h0 hf
    rw [deleteCategory_notfound h0 hf]
    exact ⟨rfl, rfl⟩

theorem c2_delete_category_guard_witness :
    (0 < refItemCount cexStore.items 1 ∧
      (deleteCategory 1 cexStore).1.status = 400 ∧
      (deleteCategory 1 cexStore).1.success = false ∧
      (deleteCategory 1 cexStore).1.message = conflictMessage (refItemCount cexStore.items 1) ∧
      (deleteCategory 1 cexStore).2 = cexStore) ∧
    (refItemCount cexStore.items 99 = 0 ∧
      cexStore.categories.find? (fun c => c.id == 99) = none ∧
      (deleteCategory 99 cexStore).1 = ⟨404, false, "Category not found"⟩ ∧
      (deleteCategory 99 cexStore).2 = cexStore) :=
  ⟨⟨by decide, (c2_delete_category_guard 1 cexStore).1 (by decide)⟩,
   ⟨by decide, by decide,
    (c2_delete_category_guard 99 cexStore).2 (by decide) (by decide)⟩⟩

/-- C10: the delete guard and the denormalized counter use different
predicates.  For a category referenced only by non-active items, a recount
writes `itemCount = 0`, yet `deleteCategory` still answers the 400 conflict
response and does not delete — so `itemCount = 0` does not imply the
category is deletable. -/
theorem c10_stale_zero_count_still_blocked (s : Store) (cid : Nat)
    (hall : ∀ i ∈ s.items, i.category = cid → i.status ≠ ItemStatus.active)
    (hex : ∃ i ∈ s.items, i.category = cid) :
    (∀ c ∈ (updateCategoryItemCount cid s).categories, c.id = cid → c.itemCount = 0) ∧
    (deleteCategory cid (updateCategoryItemCount cid s)).1.status = 400 ∧
    (deleteCategory cid (updateCategoryItemCount cid s)).1.success = false ∧
    (deleteCategory cid (updateCategoryItemCount cid s)).2 = updateCategoryItemCount cid s := by
  have hzero : activeItemCount s.items cid = 0 := by
    unfold activeItemCount
    rw [List.length_eq_zero]
    rw [List.filter_eq_nil_iff]
    intro i hi hp
    simp only [Bool.and_eq_true, beq_iff_eq, decide_eq_true_eq] at hp
    exact hall i hi hp.1 hp.2
  have hpos : 0 < refItemCount (updateCategoryItemCount cid s).items cid := by
    rw [updateCategoryItemCount_items]
    obtain ⟨i, hi, hic⟩ := hex
    unfold refItemCount
    rw [List.length_pos]
    intro hnil
    have hmem : i ∈ s.items.filter fun i => i.category == cid :=
      List.mem_filter.mpr ⟨hi, by simp [hic]⟩
    rw [hnil] at hmem
    exact absurd hmem (List.not_mem_nil i)
  refine ⟨?_, ?_⟩
  · intro c hc hcid
    unfold updateCategoryItemCount at hc
    obtain ⟨b, hb, hfb⟩ := List.mem_map.mp hc
    by_cases hbid : b.id = cid
    · rw [← hfb]
      simp [hbid, hzero]
    · exfalso
      apply hbid
      have : c = b := by rw [← hfb]; simp [hbid]
      rw [← this, hcid]
  · rw [deleteCategory_conflict hpos]
    exact ⟨rfl, rfl, rfl⟩

theorem c10_stale_zero_count_still_blocked_witness :
    (∀ i ∈ staleStore.items, i.category = 3 → i.status ≠ ItemStatus.active) ∧
    (∃ i ∈ staleStore.items, i.category = 3) ∧
    ((∀ c ∈ (updateCategoryItemCount 3 staleStore).categories, c.id = 3 → c.itemCount = 0) ∧
      (deleteCategory 3 (updateCategoryItemCount 3 staleStore)).1.status = 400 ∧
      (deleteCategory 3 (updateCategoryItemCount 3 staleStore)).1.success = false ∧
      (deleteCategory 3 (updateCategoryItemCount 3 staleStore)).2 = updateCategoryItemCount 3 staleStore) :=
  ⟨by decide, by decide,
   c10_stale_zero_count_still_blocked staleStore 3 (by decide) (by decide)⟩

/-! ## Item creation guards and recount-failure swallowing -/

theorem find_none_of_cat_not_exists {s : Store} {cid : Nat}
    (h : categoryIdExists s (some cid) = false) :
    s.categories.find? (fun c => c.id == cid) = none := by
  have h2 : (s.categories.find? (fun c => c.id == cid)).isSome = false := h
  cases hfd : s.categories.find? fun c => c.id == cid with
  | none => rfl
  | some a => rw [hfd] at h2; simp at h2

/-- C3: an item-create request whose `category` does not identify an existing
category fails with 400 "Category not found" and leaves the whole store
untouched (typed handler, unconditionally).  The relaxed JS handler also
always answers some 400 response with the store untouched for such a
request, and answers exactly "Category not found" whenever the request
passes its earlier field checks (character descriptions within bounds, a
derivable nonempty slug, the category field present). -/
theorem c3_create_item_missing_category :
    (∀ (fail : Bool) (newId : Nat) (r : ItemReq) (s : Store),
      categoryIdExists s r.category = false →
      (createItem fail newId r s).1 = ⟨400, false, "Category not found"⟩ ∧
      (createItem fail newId r s).2 = s) ∧
    (∀ (fail : Bool) (newId : Nat) (r : ItemReqJS) (s : Store),
      categoryIdExists s r.category = false →
      (∃ msg : String, createItemRelaxed fail newId r s = some (⟨400, false, msg⟩, s)) ∧
      (charactersOk r.characters = true →
        (if r.slug == "" && r.title != "" then slugify r.title else r.slug) ≠ "" →
        ∀ cid : Nat, r.category = some cid →
        createItemRelaxed fail newId r s = some (⟨400, false, "Category not found"⟩, s))) := by
  constructor
  · intro fail newId r s h
    unfold createItem
    rw [h]
    exact ⟨rfl, rfl⟩
  · intro fail newId r s h
    constructor
    · cases hc : r.category with
      | none =>
        refine ⟨"Category is required.", ?_⟩
        unfold createItemRelaxed
        rw [hc]
      | some cid =>
        rw [hc] at h
        have hfind := find_none_of_cat_not_exists h
        simp only [createItemRelaxed, hc, hfind, Option.isNone_none, ite_true]
        split
        · exact ⟨_, rfl⟩
        · split <;> split
          · exact ⟨_, rfl⟩
          · exact ⟨_, rfl⟩
          · exact ⟨_, rfl⟩
          · exact ⟨_, rfl⟩
    · intro hch hsl cid hc
      rw [hc] at h
      have hfind := find_none_of_cat_not_exists h
      simp only [createItemRelaxed, hc, hch, Bool.not_true, Bool.false_eq_true,
        if_false, hfind, Option.isNone_none, ite_true]
      cases hq : (r.slug == "" && r.title != "") with
      | true =>
        simp [hq] at hsl
        simp [hq, hsl]
      | false =>
        simp [hq] at hsl
        simp [hq, hsl]

theorem c3_create_item_missing_category_witness :
    categoryIdExists cexStore (some 99) = false ∧
    ((createItem true 30 ⟨"T", "t", some 99, none⟩ cexStore).1 =
        ⟨400, false, "Category not found"⟩ ∧
      (createItem true 30 ⟨"T", "t", some 99, none⟩ cexStore).2 = cexStore) ∧
    createItemRelaxed true 30 ⟨"T", "t", some 99, none, []⟩ cexStore =
      some (⟨400, false, "Category not found"⟩, cexStore) :=
  ⟨by decide,
   c3_create_item_missing_category.1 true 30 ⟨"T", "t", some 99, none⟩ cexStore (by decide),
   (c3_create_item_missing_category.2 true 30 ⟨"T", "t", some 99, none, []⟩ cexStore
      (by decide)).2 (by decide) (by decide) 99 rfl⟩

/-- C4: a failure inside `updateCategoryItemCount` (its body is wrapped in a
try/catch that only logs) never changes the response of the triggering
request: for item create, update, status change, delete and bulk delete, the
response with a failing recount equals the response with a succeeding
recount. -/
theorem c4_recount_failure_swallowed :
    (∀ (fail : Bool) (newId : Nat) (r : ItemReq) (s : Store),
      (createItem fail newId r s).1 = (createItem false newId r s).1) ∧
    (∀ (fail : Bool) (iid : Nat) (r : ItemReq) (s : Store),
      (updateItem fail iid r s).1 = (updateItem false iid r s).1) ∧
    (∀ (fail : Bool) (iid : Nat) (st : ItemStatus) (s : Store),
      (updateItemStatus fail iid st s).1 = (updateItemStatus false iid st s).1) ∧
    (∀ (fail : Bool) (iid : Nat) (s : Store),
      (deleteItem fail iid s).1 = (deleteItem false iid s).1) ∧
    (∀ (fail : Bool) (ids : List Nat) (s : Store),
      (bulkDeleteItems fail ids s).1 = (bulkDeleteItems false ids s).1) := by
  refine ⟨?_, ?_, ?_, ?_, ?_⟩
  · intro fail newId r s
    unfold createItem
    split
    · rfl
    · split
      · rfl
      · split
        · rfl
        · rfl
  · intro fail iid r s
    unfold updateItem
    split
    · rfl
    · split
      · rfl
      · split
        · rfl
        · rfl
  · intro fail iid st s
    unfold updateItemStatus
    split
    · rfl
    · rfl
  · intro fail iid s
    unfold deleteItem
    split
    · rfl
    · rfl
  · intro fail ids s
    unfold bulkDeleteItems
    split
    · rfl
    · rfl

/-! ## Login and the auth gate -/

/-- C5: the two login failure modes — no active admin under the email, and an
active admin whose stored hash rejects the password — produce the identical
response: 401 with body "Invalid email or password". -/
theorem c5_login_uniform_failure (checkPw : String → String → Bool) (now : Nat)
    (admins : List Admin) (e1 p1 e2 p2 : String) (a : Admin)
    (h1 : findActiveByEmail admins e1 = none)
    (h2 : findActiveByEmail admins e2 = some a)
    (h3 : checkPw a.password p2 = false) :
    (login checkPw now e1 p1 admins).1 = (login checkPw now e2 p2 admins).1 ∧
    (login checkPw now e1 p1 admins).1 = ⟨401, false, "Invalid email or password"⟩ := by
  unfold login
  rw [h1, h2]
  simp [h3]

theorem c5_login_uniform_failure_witness :
    findActiveByEmail [cexAdmin] "ghost@site.com" = none ∧
    findActiveByEmail [cexAdmin] "admin@site.com" = some cexAdmin ∧
    cexCheckPw cexAdmin.password "wrong" = false ∧
    ((login cexCheckPw 0 "ghost@site.com" "pw" [cexAdmin]).1 =
        (login cexCheckPw 0 "admin@site.com" "wrong" [cexAdmin]).1 ∧
      (login cexCheckPw 0 "ghost@site.com" "pw" [cexAdmin]).1 =
        ⟨401, false, "Invalid email or password"⟩) :=
  ⟨by decide, by decide, by decide,
   c5_login_uniform_failure cexCheckPw 0 [cexAdmin] "ghost@site.com" "pw"
     "admin@site.com" "wrong" cexAdmin (by decide) (by decide) (by decide)⟩

/-- C6 counterexample: the claim says the 401 for an expired token differs
from the 401 for a malformed token, but `authenticate` answers the two
identically — its catch block returns 401 "Invalid token." for every
`jwt.verify` throw, so at this concrete input the responses coincide. -/
theorem c6_expired_vs_malformed_same_response :
    cexVerify "t-expired" = VerifyResult.expired ∧
    cexVerify "t-bad" = VerifyResult.malformed ∧
    authenticate cexVerify [] (some "t-expired") =
      authenticate cexVerify [] (some "t-bad") ∧
    authenticate cexVerify [] (some "t-expired") =
      AuthOutcome.halt ⟨401, false, "Invalid token."⟩ := by
  refine ⟨by decide, by decide, by decide, by decide⟩

/-- C6 amended: when token verification fails — expired or malformed alike —
`authenticate` answers 401 with the single undifferentiated message
"Invalid token."; the expired case is not distinguishable from the malformed
case in the response. -/
theorem c6_amended_uniform_invalid_token (verify : String → VerifyResult)
    (admins : List Admin) (t : String)
    (h : verify t = VerifyResult.expired ∨ verify t = VerifyResult.malformed) :
    authenticate verify admins (some t) =
      AuthOutcome.halt ⟨401, false, "Invalid token."⟩ := by
  rcases h with h | h <;> simp [authenticate, h]

theorem c6_amended_uniform_invalid_token_witness :
    (cexVerify "t-expired" = VerifyResult.expired ∨
      cexVerify "t-expired" = VerifyResult.malformed) ∧
    authenticate cexVerify [] (some "t-expired") =
      AuthOutcome.halt ⟨401, false, "Invalid token."⟩ :=
  ⟨Or.inl (by decide),
   c6_amended_uniform_invalid_token cexVerify [] "t-expired" (Or.inl (by decide))⟩

/-! ## Pagination -/

/-- C9: with page 2 and limit 10 over exactly 25 matching records, the page is
precisely the records at positions 11–20 (10 of them), and the pagination
block reads current 2, pages 3, total 25, hasNext true, hasPrev true. -/
theorem c9_pagination_page2_of_25 {α : Type} (l : List α) (h : l.length = 25) :
    (paginate l 2 10).1 = (l.drop 10).take 10 ∧
    (paginate l 2 10).1.length = 10 ∧
    (paginate l 2 10).2 = ⟨2, 3, 25, 10, true, true⟩ := by
  refine ⟨rfl, ?_, ?_⟩
  · simp [paginate, List.length_take, List.length_drop, h]
  · simp [paginate, h]

theorem c9_pagination_page2_of_25_witness :
    (List.range 25).length = 25 ∧
    ((paginate (List.range 25) 2 10).1 = ((List.range 25).drop 10).take 10 ∧
      (paginate (List.range 25) 2 10).1.length = 10 ∧
      (paginate (List.range 25) 2 10).2 = ⟨2, 3, 25, 10, true, true⟩) :=
  ⟨by decide, c9_pagination_page2_of_25 (List.range 25) (by decide)⟩

/-! ## Slug-uniqueness loop lemmas and C7 -/

theorem uniqueSlugLoop_free {taken : String → Bool} {base cur : String}
    {counter fuel : Nat} (h : taken cur = false) (hf : 0 < fuel) :
    uniqueSlugLoop taken base fuel cur counter = some cur := by
  cases fuel with
  | zero => omega
  | succ n => simp [uniqueSlugLoop, h]

theorem uniqueSlugLoop_taken {taken : String → Bool} {base cur : String}
    {counter fuel : Nat} (h : taken cur = true) :
    uniqueSlugLoop taken base (fuel + 1) cur counter =
      uniqueSlugLoop taken base fuel (base ++ "-" ++ toString counter) (counter + 1) := by
  simp [uniqueSlugLoop, h]

theorem self_ne_append_dash_one (a : String) : a ≠ a ++ "-1" := by
  intro h
  have hd := congrArg String.data h
  rw [String.data_append] at hd
  have hl := congrArg List.length hd
  rw [List.length_append] at hl
  have h2 : ("-1" : String).data.length = 2 := rfl
  omega

theorem createCategory_noslug_eval (nm sl u : String) (cst : CatStatus)
    (newId : Nat) (st : Store)
    (hs : slugify nm = sl) (hnm : nm ≠ "") (hne : sl ≠ "")
    (hloop : makeUniqueSlug (fun x => (st.categories.find? fun c => c.slug == x).isSome)
        sl (st.categories.length + 2) = some u) :
    createCategory nm "" cst newId st =
      some (⟨201, true, "Category created successfully"⟩,
        { st with categories := st.categories ++ [⟨newId, nm, u, cst, 0⟩] }) := by
  unfold createCategory
  rw [(by simp [hnm] : ((("" : String) == "") && (nm != "")) = true)]
  simp only [if_pos rfl, if_true]
  rw [hs]
  rw [(by rwa [beq_eq_false_iff_ne] : ((sl == "") = false))]
  simp only [Bool.false_eq_true, if_false]
  rw [hloop]

/-- C7: with a name whose base slug is `sl` and a store in which no category
slug begins with `sl`, two successive creates with that name (and no explicit
slug) produce slug `sl` for the first category and slug `sl ++ "-1"` for the
second: the loop probes `sl`, hits the first category, and takes suffix 1. -/
theorem c7_two_creates_suffix (nm sl : String) (cst : CatStatus)
    (id1 id2 : Nat) (st : Store)
    (hs : slugify nm = sl) (hne : sl ≠ "")
    (hfree : ∀ c ∈ st.categories, ∀ t : String, c.slug ≠ sl ++ t) :
    createCategory nm "" cst id1 st =
      some (⟨201, true, "Category created successfully"⟩,
        { st with categories := st.categories ++ [⟨id1, nm, sl, cst, 0⟩] }) ∧
    createCategory nm "" cst id2
        { st with categories := st.categories ++ [⟨id1, nm, sl, cst, 0⟩] } =
      some (⟨201, true, "Category created successfully"⟩,
        { st with categories :=
            (st.categories ++ [⟨id1, nm, sl, cst, 0⟩]) ++ [⟨id2, nm, sl ++ "-1", cst, 0⟩] }) := by
  have hnm : nm ≠ "" := by
    intro hnm
    rw [hnm] at hs
    exact hne hs.symm
  have hfindsl : st.categories.find? (fun c => c.slug == sl) = none := by
    rw [List.find?_eq_none]
    intro c hc
    simp only [beq_iff_eq]
    have h := hfree c hc ""
    rwa [String.append_empty] at h
  have hloop1 : makeUniqueSlug
      (fun x => (st.categories.find? fun c => c.slug == x).isSome) sl
      (st.categories.length + 2) = some sl := by
    apply uniqueSlugLoop_free
    · rw [hfindsl]
      rfl
    · omega
  constructor
  · exact createCategory_noslug_eval nm sl sl cst id1 st hs hnm hne hloop1
  · set st1 : Store := { st with categories := st.categories ++ [⟨id1, nm, sl, cst, 0⟩] }
      with hst1
    have htaken2 : ((st1.categories.find? fun c => c.slug == sl).isSome) = true := by
      rw [hst1]
      show ((st.categories ++ [(⟨id1, nm, sl, cst, 0⟩ : Category)]).find? fun c => c.slug == sl).isSome = true
      rw [List.find?_append, hfindsl]
      simp
    have hone : ("-" : String) ++ toString (1 : Nat) = "-1" := rfl
    have hfind3 : st1.categories.find? (fun c => c.slug == sl ++ "-1") = none := by
      show (st.categories ++ [(⟨id1, nm, sl, cst, 0⟩ : Category)]).find? (fun c => c.slug == sl ++ "-1") = none
      rw [List.find?_append]
      rw [(by
        rw [List.find?_eq_none]
        intro c hc
        simp only [beq_iff_eq]
        exact hfree c hc "-1" : st.categories.find? (fun c => c.slug == sl ++ "-1") = none)]
      simp only [Option.none_or]
      rw [List.find?_eq_none]
      intro c hc
      simp only [List.mem_singleton] at hc
      subst hc
      simp only [beq_iff_eq]
      exact self_ne_append_dash_one sl
    have hloop2 : makeUniqueSlug
        (fun x => (st1.categories.find? fun c => c.slug == x).isSome) sl
        (st1.categories.length + 2) = some (sl ++ "-1") := by
      show uniqueSlugLoop (fun x => (st1.categories.find? fun c => c.slug == x).isSome)
        sl ((st1.categories.length + 1) + 1) sl 1 = some (sl ++ "-1")
      rw [uniqueSlugLoop_taken htaken2]
      rw [String.append_assoc, hone]
      apply uniqueSlugLoop_free
      · rw [hfind3]
        rfl
      · omega
    exact createCategory_noslug_eval nm sl (sl ++ "-1") cst id2 st1 hs hnm hne hloop2

theorem c7_two_creates_suffix_witness :
    slugify "Movies" = "movies" ∧ ("movies" : String) ≠ "" ∧
    (∀ c ∈ emptyStore.categories, ∀ t : String, c.slug ≠ "movies" ++ t) ∧
    (createCategory "Movies" "" CatStatus.active 1 emptyStore =
      some (⟨201, true, "Category created successfully"⟩,
        { emptyStore with categories := emptyStore.categories ++ [⟨1, "Movies", "movies", CatStatus.active, 0⟩] }) ∧
    createCategory "Movies" "" CatStatus.active 2
        { emptyStore with categories := emptyStore.categories ++ [⟨1, "Movies", "movies", CatStatus.active, 0⟩] } =
      some (⟨201, true, "Category created successfully"⟩,
        { emptyStore with categories :=
            (emptyStore.categories ++ [⟨1, "Movies", "movies", CatStatus.active, 0⟩]) ++
              [⟨2, "Movies", "movies" ++ "-1", CatStatus.active, 0⟩] })) :=
  ⟨by decide, by decide, by simp [emptyStore],
   c7_two_creates_suffix "Movies" "movies" CatStatus.active 1 2 emptyStore
     (by decide) (by decide) (by simp [emptyStore])⟩

theorem c8_slugify_idempotent_on_clean_witness :
    isCleanSlug "movies" = true ∧ slugify "movies" = "movies" :=
  ⟨by decide, c8_slugify_idempotent_on_clean "movies" (by decide)⟩
